import Mathlib

/-!
Shallow embedding of the lcore-verifier attestation pipeline
(`src/proof_verifier.rs`, `src/receipt_signer.rs`, `src/graphql.rs`,
`src/main.rs`, `src/error.rs`, `src/types.rs`, `src/config.rs`).

External collaborators (bincode deserialization, the RISC Zero claim
extraction, serde_json parsing, the Keccak256 compression function, the
k256 RFC6979-deterministic ECDSA primitive, and the HTTP transport) are
modelled as explicit function parameters; everything the repository's own
code does with their results is embedded concretely.

Machine bytes are modelled as `Nat` values (each produced `% 256` where a
u8 range matters); strings are Lean `String`s, with Rust `str` operations
re-implemented over the underlying character lists.
-/

namespace LCore

/-- Error type mirroring `src/error.rs` (`VerifierError`).  Variants whose
Rust payload is a foreign error value (`reqwest::Error`,
`serde_json::Error`, `hex::FromHexError`) carry the formatted message or
nothing, since only their identity matters to the embedded control flow. -/
inductive VerifierError where
  | Config (msg : String)
  | GraphQL (msg : String)
  | ProofVerification (msg : String)
  | InvalidImageId (expected actual : String)
  | Signing (msg : String)
  | InputBox (msg : String)
  | Network (msg : String)
  | Serialization (msg : String)
  | Hex
  | ReceiptTooLarge (size max : Nat)
deriving DecidableEq, Repr

instance {ε α : Type} [DecidableEq ε] [DecidableEq α] : DecidableEq (Except ε α) := fun a b =>
  match a, b with
  | .ok x, .ok y =>
    if h : x = y then isTrue (by rw [h]) else isFalse (fun hc => h (Except.ok.inj hc))
  | .ok _, .error _ => isFalse (fun hc => Except.noConfusion hc)
  | .error _, .ok _ => isFalse (fun hc => Except.noConfusion hc)
  | .error e, .error f =>
    if h : e = f then isTrue (by rw [h]) else isFalse (fun hc => h (Except.error.inj hc))

/-- Model of a deserialized `risc0_zkvm::Receipt` as used by
`proof_verifier.rs`: the journal byte vector and the outcome of
`Receipt::get_claim()` (whose value is unused by the source, only its
success or failure). -/
structure Receipt where
  journalBytes : List Nat
  getClaim : Except String Unit
deriving DecidableEq, Repr

/-- `proof_verifier.rs`: `VerifiedProof` wraps the accepted receipt. -/
structure VerifiedProof where
  receipt : Receipt
deriving DecidableEq, Repr

/-- Rust `str::contains(needle)`: substring containment, modelled on the
character lists. -/
def containsSubstr (hay needle : String) : Bool :=
  hay.data.tails.any (fun t => needle.data.isPrefixOf t)

/-- `ProofVerifier::verify_proof` from `src/proof_verifier.rs` (lines
41-91), with bincode deserialization passed in as `deserialize`.  The
extracted image id is the source's hard-coded `"placeholder_image_id"`,
and the policy gate is the source's
`!allowed.is_empty() && !allowed.iter().any(|a| a.contains("placeholder"))`. -/
def verifyProof (allowedImageIds : List String)
    (deserialize : List Nat → Except String Receipt)
    (receiptBytes : List Nat) (proofType : String) :
    Except VerifierError VerifiedProof :=
  match deserialize receiptBytes with
  | .error e => .error (.ProofVerification ("Failed to deserialize receipt: " ++ e))
  | .ok receipt =>
    match receipt.getClaim with
    | .error e => .error (.ProofVerification ("Failed to get claim: " ++ e))
    | .ok _ =>
      let imageId := "placeholder_image_id"
      if !allowedImageIds.isEmpty
          && !(allowedImageIds.any fun allowed => containsSubstr allowed "placeholder") then
        .error (.InvalidImageId (String.intercalate ", " allowedImageIds) imageId)
      else if receipt.journalBytes.isEmpty then
        .error (.ProofVerification "Receipt has empty journal")
      else
        match proofType with
        | "iot_validation" =>
          if receipt.journalBytes.isEmpty then
            .error (.ProofVerification "Validation proof has empty journal")
          else .ok ⟨receipt⟩
        | "iot_privacy" => .ok ⟨receipt⟩
        | "iot_compute" =>
          if receipt.journalBytes.isEmpty then
            .error (.ProofVerification "Compute proof has empty journal")
          else .ok ⟨receipt⟩
        | _ => .error (.ProofVerification ("Unknown proof type: " ++ proofType))

/-- `ProofVerifier::add_allowed_image` (`src/proof_verifier.rs` lines
93-98): push the id only when not already contained. -/
def addAllowedImage (allowedImageIds : List String) (imageId : String) : List String :=
  if allowedImageIds.contains imageId then allowedImageIds
  else allowedImageIds ++ [imageId]

/-- `ProofVerifier::remove_allowed_image` (`src/proof_verifier.rs` lines
100-103): `retain(|id| id != image_id)`. -/
def removeAllowedImage (allowedImageIds : List String) (imageId : String) : List String :=
  allowedImageIds.filter (fun id => id != imageId)

/-- `src/types.rs`: `VerifiedReceipt`, the attestation record that is
hashed, signed and submitted.  `u64` indices are modelled as `Nat` (the
encoding below takes each byte `% 256`, so it agrees with `u64::to_le_bytes`
on the u64 range). -/
structure VerifiedReceipt where
  device_id : String
  proof_type : String
  receipt_hash : String
  image_id : String
  journal_hash : String
  epoch_index : Nat
  input_index : Nat
  signature : String
  timestamp : Option Nat
  verifier_address : Option String
deriving DecidableEq, Repr

/-- Rust `str::as_bytes`: the UTF-8 bytes of a string, as `Nat`s. -/
def strBytes (s : String) : List Nat :=
  s.toUTF8.toList.map (fun b => b.toNat)

/-- Rust `u64::to_le_bytes`: 8 bytes, least significant first. -/
def u64ToLeBytes (n : Nat) : List Nat :=
  (List.range 8).map (fun i => n / 256 ^ i % 256)

/-- Model of the incremental `sha3::Keccak256` hasher object: `update`
appends to the byte stream consumed so far, `finalize` applies the (here
abstract) Keccak256 compression `keccak` to that stream. -/
structure Keccak256State where
  acc : List Nat
deriving DecidableEq, Repr

def Keccak256State.new : Keccak256State := ⟨[]⟩

def Keccak256State.update (h : Keccak256State) (data : List Nat) : Keccak256State :=
  ⟨h.acc ++ data⟩

def Keccak256State.finalize (keccak : List Nat → List Nat) (h : Keccak256State) : List Nat :=
  keccak h.acc

/-- `compute_receipt_hash` from `src/receipt_signer.rs` (lines 82-95):
feed the seven fields into the hasher in the source's order and finalize. -/
def computeReceiptHash (keccak : List Nat → List Nat) (receipt : VerifiedReceipt) : List Nat :=
  let hasher := Keccak256State.new
  let hasher := hasher.update (strBytes receipt.device_id)
  let hasher := hasher.update (strBytes receipt.proof_type)
  let hasher := hasher.update (strBytes receipt.receipt_hash)
  let hasher := hasher.update (strBytes receipt.image_id)
  let hasher := hasher.update (strBytes receipt.journal_hash)
  let hasher := hasher.update (u64ToLeBytes receipt.epoch_index)
  let hasher := hasher.update (u64ToLeBytes receipt.input_index)
  hasher.finalize keccak

/-- One lowercase hexadecimal digit. -/
def hexDigitChar (n : Nat) : Char :=
  "0123456789abcdef".data.getD n '0'

/-- `hex::encode` of a single byte: exactly two lowercase digits. -/
def hexEncodeByte (b : Nat) : String :=
  ⟨[hexDigitChar (b % 256 / 16), hexDigitChar (b % 16)]⟩

/-- `hex::encode`: lowercase hex of a byte sequence. -/
def hexEncode (bytes : List Nat) : String :=
  String.join (bytes.map hexEncodeByte)

/-- The 65-byte `sig_with_recovery` buffer built by
`ReceiptSigner::sign_receipt` (`src/receipt_signer.rs` lines 60-73): the
64 signature bytes returned by the k256 primitive followed by the
hard-coded recovery byte `27`.  `sign` models `SigningKey::sign` (k256
RFC6979 ECDSA, a deterministic pure function of the message for the fixed
key), typed to return exactly 64 bytes as `Signature::to_bytes` does. -/
def signatureWithRecovery (keccak : List Nat → List Nat)
    (sign : List Nat → Fin 64 → Nat) (receipt : VerifiedReceipt) : List Nat :=
  let signingHash := computeReceiptHash keccak receipt
  let signatureBytes := sign signingHash
  List.ofFn signatureBytes ++ [27]

/-- `ReceiptSigner::sign_receipt` (`src/receipt_signer.rs` lines 52-78):
set `verifier_address` when absent, hash, sign, and store the hex-encoded
65-byte signature.  `address` is the signer's derived Ethereum address. -/
def signReceipt (keccak : List Nat → List Nat) (sign : List Nat → Fin 64 → Nat)
    (address : String) (receipt : VerifiedReceipt) : VerifiedReceipt :=
  let receipt :=
    if receipt.verifier_address.isNone then
      { receipt with verifier_address := some address }
    else receipt
  let sigWithRecovery := signatureWithRecovery keccak sign receipt
  { receipt with signature := "0x" ++ hexEncode sigWithRecovery }

/-- Rust `str::starts_with`, modelled on character lists. -/
def strStartsWith (s pat : String) : Bool :=
  pat.data.isPrefixOf s.data

/-- Stripping engine for `str::trim_start_matches`: strip one leading
occurrence of the (non-empty) pattern per step.  `fuel` only bounds the
recursion for Lean; every strip removes at least one character, so
`s.length` steps always suffice and the result is the full fixpoint. -/
def trimStartSteps (fuel : Nat) (s pat : List Char) : List Char :=
  match fuel with
  | 0 => s
  | fuel + 1 =>
    if pat ≠ [] ∧ pat.isPrefixOf s then trimStartSteps fuel (s.drop pat.length) pat
    else s

/-- Rust `str::trim_start_matches`, on character lists: repeatedly strip
the pattern while it is a (non-empty) leading occurrence. -/
def trimStartMatchesChars (s pat : List Char) : List Char :=
  trimStartSteps s.length s pat

/-- Rust `str::trim_start_matches`. -/
def trimStartMatches (s pat : String) : String :=
  ⟨trimStartMatchesChars s.data pat.data⟩

/-- `src/config.rs`: the `Config` record (values treated as opaque inputs;
only `ipfs_gateway` and `max_receipt_size` are read by the embedded code). -/
structure Config where
  graphql_endpoint : String
  inputbox_endpoint : String
  dapp_address : String
  verifier_private_key : String
  allowed_image_ids : List String
  poll_interval_secs : Nat
  ipfs_gateway : String
  max_receipt_size : Nat
  request_timeout_secs : Nat
deriving DecidableEq, Repr

/-- `fetch_receipt` from `src/main.rs` (lines 191-209), with the HTTP
transport (`reqwest::get` followed by `.bytes()`) passed in as `httpGet`:
rewrite `ipfs://` locators against the configured gateway, pass
`http(s)://` locators through, reject any other scheme.  The body bytes
returned by the transport are forwarded as-is. -/
def fetchReceipt (httpGet : String → Except String (List Nat))
    (url : String) (config : Config) : Except String (List Nat) :=
  if strStartsWith url "ipfs://" then
    let hash := trimStartMatches url "ipfs://"
    let gatewayUrl := config.ipfs_gateway ++ "/ipfs/" ++ hash
    httpGet gatewayUrl
  else if strStartsWith url "http://" || strStartsWith url "https://" then
    httpGet url
  else
    .error ("Unsupported receipt URL scheme: " ++ url)

/-- `src/types.rs`: `ProofRequest` decoded from a notice payload. -/
structure ProofRequest where
  device_id : String
  proof_type : String
  receipt_url : String
  expected_image_id : String
  epoch_index : Nat
  input_index : Nat
deriving DecidableEq, Repr

/-- Value of one hexadecimal digit character, as `hex::decode` accepts
them (both cases). -/
def hexDigitVal (c : Char) : Option Nat :=
  if '0' ≤ c ∧ c ≤ '9' then some (c.toNat - '0'.toNat)
  else if 'a' ≤ c ∧ c ≤ 'f' then some (c.toNat - 'a'.toNat + 10)
  else if 'A' ≤ c ∧ c ≤ 'F' then some (c.toNat - 'A'.toNat + 10)
  else none

/-- `hex::decode` on the character list: pairs of hex digits; odd length
or a non-digit character fails. -/
def hexDecodeChars : List Char → Option (List Nat)
  | [] => some []
  | [_] => none
  | hi :: lo :: rest => do
    let h ← hexDigitVal hi
    let l ← hexDigitVal lo
    let r ← hexDecodeChars rest
    pure ((h * 16 + l) :: r)

/-- `hex::decode` on a string. -/
def hexDecode (s : String) : Option (List Nat) :=
  hexDecodeChars s.data

/-- A UTF-8 continuation byte (`0x80..=0xBF`). -/
def isUtf8Cont (b : Nat) : Bool :=
  decide (0x80 ≤ b ∧ b ≤ 0xBF)

/-- `String::from_utf8` success predicate: strict RFC 3629 UTF-8 validity
of a byte sequence (no overlong forms, no surrogates, max U+10FFFF). -/
def isValidUtf8 : List Nat → Bool
  | [] => true
  | b :: rest =>
    if b ≤ 0x7F then isValidUtf8 rest
    else if 0xC2 ≤ b ∧ b ≤ 0xDF then
      match rest with
      | c1 :: rest2 => isUtf8Cont c1 && isValidUtf8 rest2
      | [] => false
    else if b = 0xE0 then
      match rest with
      | c1 :: c2 :: rest2 =>
        decide (0xA0 ≤ c1 ∧ c1 ≤ 0xBF) && isUtf8Cont c2 && isValidUtf8 rest2
      | _ => false
    else if (0xE1 ≤ b ∧ b ≤ 0xEC) ∨ b = 0xEE ∨ b = 0xEF then
      match rest with
      | c1 :: c2 :: rest2 => isUtf8Cont c1 && isUtf8Cont c2 && isValidUtf8 rest2
      | _ => false
    else if b = 0xED then
      match rest with
      | c1 :: c2 :: rest2 =>
        decide (0x80 ≤ c1 ∧ c1 ≤ 0x9F) && isUtf8Cont c2 && isValidUtf8 rest2
      | _ => false
    else if b = 0xF0 then
      match rest with
      | c1 :: c2 :: c3 :: rest2 =>
        decide (0x90 ≤ c1 ∧ c1 ≤ 0xBF) && isUtf8Cont c2 && isUtf8Cont c3 && isValidUtf8 rest2
      | _ => false
    else if 0xF1 ≤ b ∧ b ≤ 0xF3 then
      match rest with
      | c1 :: c2 :: c3 :: rest2 =>
        isUtf8Cont c1 && isUtf8Cont c2 && isUtf8Cont c3 && isValidUtf8 rest2
      | _ => false
    else if b = 0xF4 then
      match rest with
      | c1 :: c2 :: c3 :: rest2 =>
        decide (0x80 ≤ c1 ∧ c1 ≤ 0x8F) && isUtf8Cont c2 && isUtf8Cont c3 && isValidUtf8 rest2
      | _ => false
    else false

/-- Outcome of the serde_json boundary for one decoded payload string:
`typeField` is `json.get("type").and_then(|v| v.as_str())`, and
`dataRequest` is `serde_json::from_value::<ProofRequest>(json["data"])`
when it succeeds.  `none` for the whole record models a JSON parse
failure of the payload. -/
structure ParsedNotice where
  typeField : Option String
  dataRequest : Option ProofRequest
deriving DecidableEq, Repr

/-- The notice-payload decoding loop of `GraphQLClient::query_proof_requests`
(`src/graphql.rs` lines 176-199), over the payload strings of the fetched
notice edges, with serde_json modelled by `parseJson` (applied to the
UTF-8 bytes, which determine the decoded Rust `String`).  Hex-decode
failure and UTF-8 failure propagate through `?`, aborting the whole call;
JSON-level failures only skip the entry. -/
def queryProofRequests (parseJson : List Nat → Option ParsedNotice) :
    List String → Except VerifierError (List ProofRequest)
  | [] => .ok []
  | payload :: rest =>
    let payloadHex := trimStartMatches payload "0x"
    match hexDecode payloadHex with
    | none => .error .Hex
    | some payloadBytes =>
      if isValidUtf8 payloadBytes then
        match queryProofRequests parseJson rest with
        | .error e => .error e
        | .ok requests =>
          match parseJson payloadBytes with
          | some parsed =>
            if parsed.typeField = some "risc0_proof_request" then
              match parsed.dataRequest with
              | some request => .ok (request :: requests)
              | none => .ok requests
            else .ok requests
          | none => .ok requests
      else .error (.GraphQL "Invalid UTF-8 in payload")

/-- The proof request that one well-formed payload contributes: the
element-wise reading of the loop body of `query_proof_requests` for an
entry whose payload hex-decodes. -/
def decodedRequest (parseJson : List Nat → Option ParsedNotice)
    (payload : String) : Option ProofRequest :=
  match hexDecode (trimStartMatches payload "0x") with
  | some payloadBytes =>
    match parseJson payloadBytes with
    | some parsed =>
      if parsed.typeField = some "risc0_proof_request" then parsed.dataRequest
      else none
    | none => none
  | none => none

/-- The batch loop of `process_proof_requests` (`src/main.rs` lines
115-144), with the whole per-request pipeline
(`process_single_request`: fetch → verify → sign → submit) abstracted as
`step`.  Returns the `processed` success count together with the ordered
per-request outcome log (the source logs each failure with `warn!` and
continues). -/
def processProofRequests (step : ProofRequest → Except String Unit) :
    List ProofRequest → Nat × List (Except String Unit)
  | [] => (0, [])
  | request :: rest =>
    let outcome := step request
    let (n, log) := processProofRequests step rest
    match outcome with
    | .ok _ => (n + 1, outcome :: log)
    | .error _ => (n, outcome :: log)

/-! ## Helper lemmas -/

/-- The incremental hashing in `computeReceiptHash` consumes exactly the
concatenation of the seven encoded fields, in order. -/
theorem computeReceiptHash_eq_concat (keccak : List Nat → List Nat)
    (receipt : VerifiedReceipt) :
    computeReceiptHash keccak receipt =
      keccak (strBytes receipt.device_id ++ strBytes receipt.proof_type ++
        strBytes receipt.receipt_hash ++ strBytes receipt.image_id ++
        strBytes receipt.journal_hash ++ u64ToLeBytes receipt.epoch_index ++
        u64ToLeBytes receipt.input_index) := by
  simp [computeReceiptHash, Keccak256State.new, Keccak256State.update,
    Keccak256State.finalize, List.append_assoc]

/-- The signature string produced by `signReceipt` is the hex encoding of
the 64 primitive signature bytes over the receipt hash, followed by the
constant byte 27; the verifier-address adjustment does not influence it. -/
theorem signReceipt_signature_eq (keccak : List Nat → List Nat)
    (sign : List Nat → Fin 64 → Nat) (address : String) (receipt : VerifiedReceipt) :
    (signReceipt keccak sign address receipt).signature =
      "0x" ++ hexEncode (List.ofFn (sign (computeReceiptHash keccak receipt)) ++ [27]) := by
  cases hva : receipt.verifier_address <;>
    simp [signReceipt, signatureWithRecovery, hva, computeReceiptHash,
      Keccak256State.new, Keccak256State.update, Keccak256State.finalize]

/-! ## Claim theorems -/

/-- C3: in `ReceiptSigner::sign_receipt` the 65th byte of the 65-byte
signature buffer is the constant 27 for every receipt, every Keccak256
compression and every signature primitive — it is hard-coded, not
computed from the actual signature's recovery bit (the claim's required
behavior therefore does not hold of this code). -/
theorem recovery_byte_hardcoded (keccak : List Nat → List Nat)
    (sign : List Nat → Fin 64 → Nat) (receipt : VerifiedReceipt) :
    (signatureWithRecovery keccak sign receipt).getLast? = some 27 ∧
    (signatureWithRecovery keccak sign receipt).length = 65 := by
  constructor
  · simp [signatureWithRecovery]
  · simp [signatureWithRecovery]

/-- C4: signing is deterministic — two `sign_receipt` runs with the same
key (same derived address and same deterministic ECDSA primitive) on
receipts that agree on every hashed field produce identical signature
encodings; in particular equal inputs give byte-identical signatures. -/
theorem signing_deterministic (keccak : List Nat → List Nat)
    (sign : List Nat → Fin 64 → Nat) (address : String)
    (r₁ r₂ : VerifiedReceipt)
    (h₁ : r₁.device_id = r₂.device_id) (h₂ : r₁.proof_type = r₂.proof_type)
    (h₃ : r₁.receipt_hash = r₂.receipt_hash) (h₄ : r₁.image_id = r₂.image_id)
    (h₅ : r₁.journal_hash = r₂.journal_hash) (h₆ : r₁.epoch_index = r₂.epoch_index)
    (h₇ : r₁.input_index = r₂.input_index) :
    (signReceipt keccak sign address r₁).signature =
    (signReceipt keccak sign address r₂).signature := by
  rw [signReceipt_signature_eq, signReceipt_signature_eq,
    computeReceiptHash_eq_concat, computeReceiptHash_eq_concat,
    h₁, h₂, h₃, h₄, h₅, h₆, h₇]

/-- C4 witness: two concrete receipts differing only in timestamp agree on
every hashed field and get the same signature. -/
theorem signing_deterministic_witness :
    ({ device_id := "device123", proof_type := "iot_validation",
       receipt_hash := "0x1234", image_id := "0x5678", journal_hash := "0xabcd",
       epoch_index := 1, input_index := 2, signature := "",
       timestamp := some 1, verifier_address := none : VerifiedReceipt }).device_id =
    ({ device_id := "device123", proof_type := "iot_validation",
       receipt_hash := "0x1234", image_id := "0x5678", journal_hash := "0xabcd",
       epoch_index := 1, input_index := 2, signature := "",
       timestamp := some 2, verifier_address := none : VerifiedReceipt }).device_id ∧
    (signReceipt (fun l => l) (fun _ _ => 0) "0xaddr"
      { device_id := "device123", proof_type := "iot_validation",
        receipt_hash := "0x1234", image_id := "0x5678", journal_hash := "0xabcd",
        epoch_index := 1, input_index := 2, signature := "",
        timestamp := some 1, verifier_address := none }).signature =
    (signReceipt (fun l => l) (fun _ _ => 0) "0xaddr"
      { device_id := "device123", proof_type := "iot_validation",
        receipt_hash := "0x1234", image_id := "0x5678", journal_hash := "0xabcd",
        epoch_index := 1, input_index := 2, signature := "",
        timestamp := some 2, verifier_address := none }).signature :=
  ⟨rfl, signing_deterministic (fun l => l) (fun _ _ => 0) "0xaddr" _ _
    rfl rfl rfl rfl rfl rfl rfl⟩

/-- C5: the digest signed by the signer is Keccak256 of the concatenation,
in the source's fixed order, of the UTF-8 bytes of the device id, the
proof-type tag, the hex-text receipt hash, the hex-text image id and the
hex-text journal hash, followed by the 8-byte little-endian epoch index
and input index — and of nothing else: the signature, timestamp and
verifier-address fields do not enter the digest. -/
theorem canonical_hash_fields (keccak : List Nat → List Nat)
    (receipt : VerifiedReceipt) :
    computeReceiptHash keccak receipt =
      keccak (strBytes receipt.device_id ++ strBytes receipt.proof_type ++
        strBytes receipt.receipt_hash ++ strBytes receipt.image_id ++
        strBytes receipt.journal_hash ++ u64ToLeBytes receipt.epoch_index ++
        u64ToLeBytes receipt.input_index) ∧
    ∀ sig ts va,
      computeReceiptHash keccak
        { receipt with signature := sig, timestamp := ts, verifier_address := va } =
      computeReceiptHash keccak receipt := by
  refine ⟨computeReceiptHash_eq_concat keccak receipt, ?_⟩
  intro sig ts va
  rfl

/-- C8: the orchestrator's batch loop attempts every request and reports
an outcome for each — for any per-request pipeline `step` (which may fail
at any stage) the outcome log lists `step`'s result for every request in
order, and the returned count is the number of successes; no failure
aborts the remainder of the batch. -/
theorem batch_failure_isolation (step : ProofRequest → Except String Unit)
    (requests : List ProofRequest) :
    (processProofRequests step requests).2 = requests.map step ∧
    (processProofRequests step requests).1 =
      (requests.filter (fun r => (step r).toBool)).length := by
  induction requests with
  | nil => exact ⟨rfl, rfl⟩
  | cons r rest ih =>
    cases h : step r <;>
      simp [processProofRequests, h, ih.1, ih.2, List.filter_cons, Except.toBool]

/-- C9: allow-list mutation is idempotent — adding an already present
image id leaves the list unchanged (so adding twice equals adding once),
and removing a non-member leaves the list unchanged. -/
theorem allow_list_idempotent (allowedImageIds : List String) (imageId : String) :
    (imageId ∈ allowedImageIds →
      addAllowedImage allowedImageIds imageId = allowedImageIds) ∧
    addAllowedImage (addAllowedImage allowedImageIds imageId) imageId =
      addAllowedImage allowedImageIds imageId ∧
    (imageId ∉ allowedImageIds →
      removeAllowedImage allowedImageIds imageId = allowedImageIds) := by
  refine ⟨?_, ?_, ?_⟩
  · intro hmem
    simp [addAllowedImage, hmem]
  · by_cases hmem : imageId ∈ allowedImageIds
    · simp [addAllowedImage, hmem]
    · simp [addAllowedImage, hmem]
  · intro hmem
    apply List.filter_eq_self.mpr
    intro a ha
    simp only [bne_iff_ne, ne_eq]
    intro hax
    exact hmem (hax ▸ ha)

/-- C9 witness: concrete instantiations of the three idempotence facts. -/
theorem allow_list_idempotent_witness :
    ("image1" ∈ ["image1", "image2"] ∧
      addAllowedImage ["image1", "image2"] "image1" = ["image1", "image2"]) ∧
    addAllowedImage (addAllowedImage ["image1", "image2"] "image3") "image3" =
      addAllowedImage ["image1", "image2"] "image3" ∧
    ("image3" ∉ ["image1", "image2"] ∧
      removeAllowedImage ["image1", "image2"] "image3" = ["image1", "image2"]) :=
  ⟨⟨by decide, (allow_list_idempotent ["image1", "image2"] "image1").1 (by decide)⟩,
    (allow_list_idempotent ["image1", "image2"] "image3").2.1,
    ⟨by decide, (allow_list_idempotent ["image1", "image2"] "image3").2.2 (by decide)⟩⟩

/-- C10: `sign_receipt` changes only the signature field and, when absent,
the verifier address (set to the signer's derived address); every other
field is returned unchanged, and an already-present verifier address is
preserved. -/
theorem sign_receipt_frame (keccak : List Nat → List Nat)
    (sign : List Nat → Fin 64 → Nat) (address : String) (receipt : VerifiedReceipt) :
    (signReceipt keccak sign address receipt).device_id = receipt.device_id ∧
    (signReceipt keccak sign address receipt).proof_type = receipt.proof_type ∧
    (signReceipt keccak sign address receipt).receipt_hash = receipt.receipt_hash ∧
    (signReceipt keccak sign address receipt).image_id = receipt.image_id ∧
    (signReceipt keccak sign address receipt).journal_hash = receipt.journal_hash ∧
    (signReceipt keccak sign address receipt).epoch_index = receipt.epoch_index ∧
    (signReceipt keccak sign address receipt).input_index = receipt.input_index ∧
    (signReceipt keccak sign address receipt).timestamp = receipt.timestamp ∧
    (receipt.verifier_address = none →
      (signReceipt keccak sign address receipt).verifier_address = some address) ∧
    (∀ a, receipt.verifier_address = some a →
      (signReceipt keccak sign address receipt).verifier_address = some a) := by
  cases hva : receipt.verifier_address <;>
    simp [signReceipt, hva]

/-- C10 witness: concrete frame facts for a receipt without a verifier
address and for one with a verifier address already present. -/
theorem sign_receipt_frame_witness :
    (signReceipt (fun l => l) (fun _ _ => 0) "0xaddr"
      { device_id := "d", proof_type := "iot_privacy", receipt_hash := "0x01",
        image_id := "0x02", journal_hash := "0x03", epoch_index := 4,
        input_index := 5, signature := "", timestamp := some 6,
        verifier_address := none }).timestamp = some 6 ∧
    (signReceipt (fun l => l) (fun _ _ => 0) "0xaddr"
      { device_id := "d", proof_type := "iot_privacy", receipt_hash := "0x01",
        image_id := "0x02", journal_hash := "0x03", epoch_index := 4,
        input_index := 5, signature := "", timestamp := some 6,
        verifier_address := none }).verifier_address = some "0xaddr" ∧
    (signReceipt (fun l => l) (fun _ _ => 0) "0xaddr"
      { device_id := "d", proof_type := "iot_privacy", receipt_hash := "0x01",
        image_id := "0x02", journal_hash := "0x03", epoch_index := 4,
        input_index := 5, signature := "", timestamp := some 6,
        verifier_address := some "0xother" }).verifier_address = some "0xother" :=
  ⟨(sign_receipt_frame (fun l => l) (fun _ _ => 0) "0xaddr" _).2.2.2.2.2.2.2.1,
    (sign_receipt_frame (fun l => l) (fun _ _ => 0) "0xaddr" _).2.2.2.2.2.2.2.2.1 rfl,
    (sign_receipt_frame (fun l => l) (fun _ _ => 0) "0xaddr" _).2.2.2.2.2.2.2.2.2 "0xother" rfl⟩

/-! ## Concrete fixtures for evaluation theorems -/

/-- A deserializer producing a receipt with a one-byte journal and a
successful claim extraction, for any input bytes. -/
def deserializeOneByteJournal : List Nat → Except String Receipt :=
  fun _ => .ok ⟨[1], .ok ()⟩

/-- A deserializer producing a receipt with an empty journal and a
successful claim extraction, for any input bytes. -/
def deserializeEmptyJournal : List Nat → Except String Receipt :=
  fun _ => .ok ⟨[], .ok ()⟩

/-- An HTTP transport whose response body is always 11 bytes long. -/
def httpGetEleven : String → Except String (List Nat) :=
  fun _ => .ok (List.replicate 11 0)

/-- A configuration whose receipt-size ceiling is 10 bytes. -/
def configCeilingTen : Config :=
  { graphql_endpoint := "http://localhost:8000/graphql"
    inputbox_endpoint := "http://localhost:8080/input"
    dapp_address := "0x0000000000000000000000000000000000000000"
    verifier_private_key := "k"
    allowed_image_ids := ["image1"]
    poll_interval_secs := 10
    ipfs_gateway := "https://ipfs.io"
    max_receipt_size := 10
    request_timeout_secs := 30 }

/-- A well-formed discovered proof request. -/
def requestA : ProofRequest :=
  { device_id := "dev", proof_type := "iot_compute", receipt_url := "http://r"
    expected_image_id := "img", epoch_index := 1, input_index := 2 }

/-- serde_json boundary recognizing the single payload byte `0x41` (the
JSON the source would see) as a `risc0_proof_request` notice carrying
`requestA`. -/
def parseJsonA : List Nat → Option ParsedNotice :=
  fun bytes =>
    if bytes = [0x41] then some ⟨some "risc0_proof_request", some requestA⟩
    else none

/-- C1: the allow-list gate of `verify_proof` is not a membership check on
the extracted identity — with the non-empty allow-list `["placeholder"]`
the extracted identity `"placeholder_image_id"` is not a member, yet
`verify_proof` accepts the artifact instead of rejecting it with
`InvalidImageId` (the gate merely asks whether some allow-list entry
contains the substring `"placeholder"`, and the identity is hard-coded). -/
theorem allow_list_gate_bypassed :
    ("placeholder_image_id" ∈ ["placeholder"] → False) ∧
    (["placeholder"] : List String) ≠ [] ∧
    verifyProof ["placeholder"] deserializeOneByteJournal [0] "iot_validation" =
      .ok ⟨⟨[1], .ok ()⟩⟩ :=
  ⟨by decide, by decide, by rfl⟩

/-- C2: `fetch_receipt` never consults the configured size ceiling — with
`max_receipt_size = 10` it returns an 11-byte artifact untouched instead
of failing (`ReceiptTooLarge` is declared in `src/error.rs` but never
produced). -/
theorem size_ceiling_not_enforced :
    fetchReceipt httpGetEleven "http://example.com/receipt" configCeilingTen =
      .ok (List.replicate 11 0) ∧
    configCeilingTen.max_receipt_size < (List.replicate 11 (0 : Nat)).length :=
  ⟨by rfl, by decide⟩

/-- C6 counterexample: one malformed feed entry fails the whole discovery
call — with payloads `["0xzz", "0x41"]`, whose first payload is not valid
hex, `query_proof_requests` returns the hex error instead of the request
decoded from the remaining well-formed entry (which it does return when
the malformed entry is absent). -/
theorem malformed_entry_aborts_discovery :
    queryProofRequests parseJsonA ["0xzz", "0x41"] = .error .Hex ∧
    queryProofRequests parseJsonA ["0x41"] = .ok [requestA] :=
  ⟨by rfl, by rfl⟩

/-- C6 amended: when every payload in the feed hex-decodes to valid UTF-8
bytes, `query_proof_requests` silently discards the entries that are not
well-formed proof-request records (JSON parse failure, missing or
non-matching type tag, or a data object that does not decode) and returns
the requests decoded from the remaining entries; payloads that are not
valid hex or not valid UTF-8, however, abort the whole call. -/
theorem wellformed_entries_filtered (parseJson : List Nat → Option ParsedNotice)
    (payloads : List String)
    (hdec : ∀ p ∈ payloads, ∃ bytes,
      hexDecode (trimStartMatches p "0x") = some bytes ∧ isValidUtf8 bytes = true) :
    queryProofRequests parseJson payloads =
      .ok (payloads.filterMap (decodedRequest parseJson)) := by
  induction payloads with
  | nil => rfl
  | cons p rest ih =>
    obtain ⟨bytes, hb, hu⟩ := hdec p (List.mem_cons_self p rest)
    have ih' := ih (fun q hq => hdec q (List.mem_cons_of_mem p hq))
    simp only [queryProofRequests, hb, hu, ih', List.filterMap_cons, decodedRequest]
    cases hpj : parseJson bytes with
    | none => simp
    | some parsed =>
      by_cases hty : parsed.typeField = some "risc0_proof_request"
      · simp only [hty, if_pos rfl]
        cases parsed.dataRequest <;> simp
      · simp [hty]

/-- C6 witness: a single well-formed payload decodes and is returned. -/
theorem wellformed_entries_filtered_witness :
    (∀ p ∈ ["0x41"], ∃ bytes,
      hexDecode (trimStartMatches p "0x") = some bytes ∧ isValidUtf8 bytes = true) ∧
    queryProofRequests parseJsonA ["0x41"] =
      .ok ((["0x41"] : List String).filterMap (decodedRequest parseJsonA)) := by
  have hdec : ∀ p ∈ ["0x41"], ∃ bytes,
      hexDecode (trimStartMatches p "0x") = some bytes ∧ isValidUtf8 bytes = true := by
    intro p hp
    rw [List.mem_singleton] at hp
    subst hp
    exact ⟨[0x41], rfl, rfl⟩
  exact ⟨hdec, wellformed_entries_filtered parseJsonA ["0x41"] hdec⟩

/-- C7 counterexample: an artifact with proof-type `"iot_privacy"` and an
empty journal IS rejected by the empty-journal check — the generic check
fires before the per-type match, so the privacy arm's tolerance is
unreachable for empty journals. -/
theorem privacy_empty_journal_rejected :
    verifyProof ["placeholder"] deserializeEmptyJournal [] "iot_privacy" =
      .error (.ProofVerification "Receipt has empty journal") := by
  rfl

/-- C7 amended: for every artifact that deserializes with a successful
claim extraction and passes the allow-list gate, an empty output journal
makes `verify_proof` fail with the empty-journal error for EVERY
proof-type tag (`iot_compute` and `iot_validation` as the claim states,
but also `iot_privacy`) before any cryptographic verification — indeed
`verify_proof` invokes no cryptographic primitive at all; and for a
non-empty journal any tag other than the three recognized ones is a hard
`Unknown proof type` failure, not a pass-through. -/
theorem empty_journal_and_unknown_type (allowed : List String)
    (deserialize : List Nat → Except String Receipt) (receiptBytes : List Nat)
    (r : Receipt) (proofType : String)
    (hdes : deserialize receiptBytes = .ok r)
    (hclaim : r.getClaim = .ok ())
    (hpol : (!allowed.isEmpty &&
      !(allowed.any fun a => containsSubstr a "placeholder")) = false) :
    (r.journalBytes = [] →
      verifyProof allowed deserialize receiptBytes proofType =
        .error (.ProofVerification "Receipt has empty journal")) ∧
    (r.journalBytes ≠ [] → proofType ≠ "iot_validation" → proofType ≠ "iot_privacy" →
      proofType ≠ "iot_compute" →
      verifyProof allowed deserialize receiptBytes proofType =
        .error (.ProofVerification ("Unknown proof type: " ++ proofType))) := by
  constructor
  · intro hj
    simp [verifyProof, hdes, hclaim, hpol, hj]
  · intro hj h1 h2 h3
    have hje : r.journalBytes.isEmpty = false := by simp [List.isEmpty_iff, hj]
    simp only [verifyProof, hdes, hclaim, hpol, Bool.false_eq_true, if_false, hje]

/-- C7 witness: concrete instantiation — an allow-listed artifact with an
empty journal and proof-type `iot_compute` fails with the empty-journal
error. -/
theorem empty_journal_and_unknown_type_witness :
    deserializeEmptyJournal [] = .ok ⟨[], .ok ()⟩ ∧
    (⟨[], .ok ()⟩ : Receipt).getClaim = .ok () ∧
    (!(["placeholder"] : List String).isEmpty &&
      !((["placeholder"] : List String).any fun a => containsSubstr a "placeholder")) = false ∧
    verifyProof ["placeholder"] deserializeEmptyJournal [] "iot_compute" =
      .error (.ProofVerification "Receipt has empty journal") :=
  ⟨rfl, rfl, by rfl,
    (empty_journal_and_unknown_type ["placeholder"] deserializeEmptyJournal []
      ⟨[], .ok ()⟩ "iot_compute" rfl rfl (by rfl)).1 rfl⟩

end LCore
